import Mathlib

/-!
Shallow embedding of `src/backend/server.py` (the "Mystery API" reveal
service): the fragment table, the persisted `UserState` record, the
`GET /user/{device_id}` status endpoint and the `POST /reveal` endpoint,
together with proofs of the specified properties.

Modelling conventions:
* Timestamps are UTC instants measured in whole microseconds (`Nat`), the
  precision of Python `datetime`.  `datetime.utcnow()` calls are modelled as
  explicit `Time` parameters, one per sampling site in the source.
* The MongoDB collection `db.mystery_users` is a list of records; `find_one`
  returns the first record whose `device_id` matches, `insert_one` appends,
  and `update_one` with a `$set` document rewrites the first matching record.
* Python `int(timedelta.total_seconds())` on a non-negative timedelta
  truncates, i.e. floor-divides the microsecond count by 1000000
  (`truncSeconds`).
* Python list indexing admits negative indices (`pyGet`); an out-of-range
  index raises `IndexError`, modelled by the `RevealResult.indexError`
  outcome.
* The `uuid4` id and the string-vs-datetime normalisation of a stored
  timestamp are plumbing with no effect on the decision logic: the id is
  modelled as the empty string and timestamps as already-parsed instants.
-/

namespace Mystery

/-- A UTC instant in microseconds. -/
abbrev Time := Nat

/-- `timedelta(hours=24)` in microseconds. -/
def COOLDOWN_US : Time := 24 * 60 * 60 * 1000000

/-- 10-day sentence sequence with highlighted words, format
`(sentence_before_red, red_word, sentence_after_red)` — `SENTENCE_SEQUENCE`
from the source, verbatim. -/
def SENTENCE_SEQUENCE : List (String × String × String) := [
  ("Nothing is random when you search for", "TRUTH", "."),
  ("Silence doesn\x27t hide answers, it", "REVEALS", "them."),
  ("Everything shows", "ITSELF", "eventually."),
  ("Understanding comes", "ONLY", "after patience."),
  ("Some things speak", "TO", "those who listen."),
  ("The message is meant", "THOSE", "who stay."),
  ("Not everyone is prepared", "WHO", "looks deeper."),
  ("Clarity arrives", "WAIT", "is respected."),
  ("Answers belong", "FOR", "the persistent."),
  ("Meaning appears", "PATIENTLY", ".")]

/-- Python list indexing `l[i]`: non-negative indices from the front,
negative indices from the back, `none` for `IndexError`. -/
def pyGet {α : Type} (l : List α) (i : Int) : Option α :=
  if 0 ≤ i then l.get? i.toNat
  else if (-i).toNat ≤ l.length then l.get? (l.length - (-i).toNat) else none

/-- The persisted `UserState` document (model `UserState` in the source).
`current_day = 0` means no fragment revealed yet, `1`–`10` are revealed days. -/
structure UserState where
  id : String
  device_id : String
  current_day : Int
  last_reveal_time : Option Time
  created_at : Time
  updated_at : Time
deriving DecidableEq, Repr

/-- `UserState(device_id=d)` freshly constructed with its field defaults
(`current_day = 0`, `last_reveal_time = None`, bookkeeping stamps `now`). -/
def newUser (d : String) (now : Time) : UserState :=
  { id := "", device_id := d, current_day := 0, last_reveal_time := none,
    created_at := now, updated_at := now }

/-- The `db.mystery_users` collection. -/
abbrev Store := List UserState

/-- `db.mystery_users.find_one({"device_id": d})`. -/
def find_one (s : Store) (d : String) : Option UserState :=
  s.find? (fun u => u.device_id == d)

/-- `db.mystery_users.insert_one(u)`. -/
def insert_one (s : Store) (u : UserState) : Store := s ++ [u]

/-- `db.mystery_users.update_one({"device_id": d}, {"$set": ...})`: rewrite
the first record matching `d` with `f`; the filter names only the device id. -/
def update_set (s : Store) (d : String) (f : UserState → UserState) : Store :=
  match s with
  | [] => []
  | u :: rest => if u.device_id == d then f u :: rest else u :: update_set rest d f

/-- `int(td.total_seconds())` for a non-negative timedelta of `us`
microseconds: truncation toward zero, i.e. floor division. -/
def truncSeconds (us : Nat) : Nat := us / 1000000

/-- Ceiling of `us` microseconds in whole seconds (what the spec claims the
code computes for the remaining wait). -/
def ceilSeconds (us : Nat) : Nat := (us + 999999) / 1000000

/-- The shared get-or-create prologue of both endpoints: `find_one`, and on
a miss construct `UserState(device_id=d)` and `insert_one` it. -/
def load_or_create (s : Store) (d : String) (now : Time) : UserState × Store :=
  match find_one s d with
  | some u => (u, s)
  | none => (newUser d now, insert_one s (newUser d now))

/-- Response model `UserStateResponse`. -/
structure UserStateResponse where
  device_id : String
  can_reveal : Bool
  seconds_until_available : Nat
  next_available_time : Option Time
  current_day : Int
  is_complete : Bool
deriving DecidableEq, Repr

/-- `GET /user/{device_id}` (`get_user_state` in the source).  `nowCreate`
models the `utcnow` defaults taken at record creation, `now` the sampling at
the cooldown comparison.  Returns the response and the resulting store. -/
def get_user_state (s : Store) (d : String) (nowCreate now : Time) :
    UserStateResponse × Store :=
  let loaded := load_or_create s d nowCreate
  let user := loaded.1
  let s₁ := loaded.2
  let current_day := user.current_day
  if 10 ≤ current_day then
    ({ device_id := user.device_id, can_reveal := false,
       seconds_until_available := 0, next_available_time := none,
       current_day := current_day, is_complete := true }, s₁)
  else
    match user.last_reveal_time with
    | some last_reveal =>
      let next_available := last_reveal + COOLDOWN_US
      if now < next_available then
        ({ device_id := user.device_id, can_reveal := false,
           seconds_until_available := truncSeconds (next_available - now),
           next_available_time := some next_available,
           current_day := current_day, is_complete := false }, s₁)
      else
        ({ device_id := user.device_id, can_reveal := true,
           seconds_until_available := 0, next_available_time := none,
           current_day := current_day, is_complete := false }, s₁)
    | none =>
      ({ device_id := user.device_id, can_reveal := true,
         seconds_until_available := 0, next_available_time := none,
         current_day := current_day, is_complete := false }, s₁)

/-- Response model `RevealResponse`. -/
structure RevealResponse where
  before_red : String
  red_word : String
  after_red : String
  day : Int
  next_available_time : Time
  is_final_day : Bool
deriving DecidableEq, Repr

/-- Outcome of a `POST /reveal` call: a 200 with a `RevealResponse`, a raised
`HTTPException`, or a Python `IndexError` from the table lookup. -/
inductive RevealResult where
  | success (r : RevealResponse)
  | httpError (status : Nat) (detail : String)
  | indexError
deriving DecidableEq, Repr

/-- Everything `reveal_sentence` does before its `update_one`: the completion
guard, the cooldown guard and the fragment fetch.  `proceed` carries the
loaded `current_day` and the fetched fragment into the write phase. -/
inductive Phase1Result where
  | reject (status : Nat) (detail : String)
  | indexErr
  | proceed (loaded_day : Int) (fragment : String × String × String)
deriving DecidableEq, Repr

/-- Load-and-decide phase of `reveal_sentence` (source lines 137–173):
get-or-create, `current_day >= 10` guard, 24-hour cooldown guard with
`seconds_remaining = int((next_available - now).total_seconds())`, then
`SENTENCE_SEQUENCE[current_day]`. -/
def reveal_phase1 (s : Store) (d : String) (nowCreate nowCheck : Time) :
    Phase1Result × Store :=
  let loaded := load_or_create s d nowCreate
  let user := loaded.1
  let s₁ := loaded.2
  let current_day := user.current_day
  if 10 ≤ current_day then
    (.reject 403 ("All sentences have been revealed."), s₁)
  else
    let cooldown : Option Phase1Result :=
      match user.last_reveal_time with
      | some last_reveal =>
        let next_available := last_reveal + COOLDOWN_US
        if nowCheck < next_available then
          some (.reject 403 ("Please wait " ++
            toString (truncSeconds (next_available - nowCheck)) ++ " seconds."))
        else none
      | none => none
    match cooldown with
    | some r => (r, s₁)
    | none =>
      match pyGet SENTENCE_SEQUENCE current_day with
      | none => (.indexErr, s₁)
      | some frag => (.proceed current_day frag, s₁)

/-- Write-and-respond phase of `reveal_sentence` (source lines 171–195): one
fresh `utcnow` sample `nowUpdate` feeds both the persisted
`last_reveal_time` and the returned `next_available_time`. -/
def reveal_phase2 (s : Store) (d : String) (loaded_day : Int)
    (frag : String × String × String) (nowUpdate : Time) :
    RevealResponse × Store :=
  let next_day := loaded_day + 1
  let s₂ := update_set s d (fun u =>
    { u with last_reveal_time := some nowUpdate, current_day := next_day,
             updated_at := nowUpdate })
  ({ before_red := frag.1, red_word := frag.2.1, after_red := frag.2.2,
     day := next_day, next_available_time := nowUpdate + COOLDOWN_US,
     is_final_day := decide (10 ≤ next_day) }, s₂)

/-- Completing a decided phase-1 outcome against a (possibly since-changed)
store: rejections write nothing, `proceed` runs the write phase. -/
def finishPhase (d : String) (p : Phase1Result) (s : Store) (nowUpdate : Time) :
    RevealResult × Store :=
  match p with
  | .reject st msg => (.httpError st msg, s)
  | .indexErr => (.indexError, s)
  | .proceed day frag =>
    let o := reveal_phase2 s d day frag nowUpdate
    (.success o.1, o.2)

/-- `POST /reveal` (`reveal_sentence` in the source): phase 1 followed
immediately by phase 2 on the store phase 1 produced. -/
def reveal_sentence (s : Store) (d : String) (nowCreate nowCheck nowUpdate : Time) :
    RevealResult × Store :=
  let p := reveal_phase1 s d nowCreate nowCheck
  finishPhase d p.1 p.2 nowUpdate

/-- Two overlapping `reveal_sentence` executions for the same device,
interleaved as load₁, load₂, write₁, write₂ — both requests read the record
before either `update_one` commits. -/
def reveal_concurrent (s : Store) (d : String) (now : Time) :
    RevealResult × RevealResult × Store :=
  let p1 := reveal_phase1 s d now now
  let p2 := reveal_phase1 p1.2 d now now
  let w1 := finishPhase d p1.1 p2.2 now
  let w2 := finishPhase d p2.1 w1.2 now
  (w1.1, w2.1, w2.2)

/-- The `current_day` the service would load for device `d` from store `s`
(0 when no record exists yet, as a freshly created record carries). -/
def dayOf (s : Store) (d : String) : Int :=
  match find_one s d with
  | some u => u.current_day
  | none => 0

/-- One API operation touching a device, with its `utcnow` samples. -/
inductive Op where
  | status (nowCreate now : Time)
  | reveal (nowCreate nowCheck nowUpdate : Time)

/-- The store after running one operation for device `d`. -/
def applyOp (s : Store) (d : String) : Op → Store
  | .status nc now => (get_user_state s d nc now).2
  | .reveal nc t nu => (reveal_sentence s d nc t nu).2

/-- The store after running a sequence of operations for device `d`. -/
def runOps (s : Store) (d : String) : List Op → Store
  | [] => s
  | op :: ops => runOps (applyOp s d op) d ops

/-! Concrete fixtures used by the counterexamples and witnesses below. -/

/-- Device used by the cooldown-rounding counterexample. -/
def cooldownDev : String := "device-cd"

/-- A record that revealed at instant 0 and sits at day 1. -/
def cooldownStore : Store :=
  [{ id := "", device_id := cooldownDev, current_day := 1, last_reveal_time := some 0,
     created_at := 0, updated_at := 0 }]

/-- Half a second before the cooldown elapses. -/
def cexT : Time := COOLDOWN_US - 500000

/-- Device whose two duplicate Reveal calls race. -/
def dupDev : String := "device-dup"

/-- A day-0 record, eligible for its first reveal. -/
def dupStore : Store :=
  [{ id := "", device_id := dupDev, current_day := 0, last_reveal_time := none,
     created_at := 0, updated_at := 0 }]

/-- The day-1 response both racing calls end up returning. -/
def dupResp : RevealResponse :=
  { before_red := "Nothing is random when you search for", red_word := "TRUTH",
    after_red := ".", day := 1, next_available_time := 5 + COOLDOWN_US,
    is_final_day := false }

/-- Device used by the status-rounding counterexample. -/
def statusDev : String := "device-st"

/-- A record that revealed at instant 0 and sits at day 1. -/
def statusStore : Store :=
  [{ id := "", device_id := statusDev, current_day := 1, last_reveal_time := some 0,
     created_at := 0, updated_at := 0 }]

/-- Witness device for the cooldown-rejection theorem. -/
def wDev1 : String := "device-w1"

/-- A day-2 record that last revealed at instant 1000. -/
def wUser1 : UserState :=
  { id := "", device_id := wDev1, current_day := 2, last_reveal_time := some 1000,
    created_at := 0, updated_at := 1000 }

/-- Store holding `wUser1`. -/
def wStore1 : Store := [wUser1]

/-- Witness device for the terminal-state theorem. -/
def wDev3 : String := "device-w3"

/-- A completed (day-10) record. -/
def wUser3 : UserState :=
  { id := "", device_id := wDev3, current_day := 10, last_reveal_time := some 0,
    created_at := 0, updated_at := 0 }

/-- Store holding `wUser3`. -/
def wStore3 : Store := [wUser3]

/-- Witness device for the increment theorem. -/
def wDev4 : String := "device-w4"

/-- A fresh day-0 record. -/
def wUser4 : UserState :=
  { id := "", device_id := wDev4, current_day := 0, last_reveal_time := none,
    created_at := 0, updated_at := 0 }

/-- Store holding `wUser4`. -/
def wStore4 : Store := [wUser4]

/-- The day-1 response of `wUser4`'s reveal. -/
def wResp4 : RevealResponse :=
  { before_red := "Nothing is random when you search for", red_word := "TRUTH",
    after_red := ".", day := 1, next_available_time := COOLDOWN_US,
    is_final_day := false }

/-- Witness device for the first-reveal theorem (no record exists). -/
def wDev5 : String := "device-w5"

/-- Witness device for the final-day theorem. -/
def wDev6 : String := "device-w6"

/-- A day-9 record eligible once the cooldown elapses. -/
def wUser6 : UserState :=
  { id := "", device_id := wDev6, current_day := 9, last_reveal_time := some 0,
    created_at := 0, updated_at := 0 }

/-- Store holding `wUser6`. -/
def wStore6 : Store := [wUser6]

/-- The day-10 response of `wUser6`'s reveal. -/
def wResp6 : RevealResponse :=
  { before_red := "Meaning appears", red_word := "PATIENTLY", after_red := ".",
    day := 10, next_available_time := COOLDOWN_US + COOLDOWN_US, is_final_day := true }

/-- Witness device for the status-cooldown theorem. -/
def wDev7 : String := "device-w7"

/-- A day-3 record that last revealed at instant 0. -/
def wUser7 : UserState :=
  { id := "", device_id := wDev7, current_day := 3, last_reveal_time := some 0,
    created_at := 0, updated_at := 0 }

/-- Store holding `wUser7`. -/
def wStore7 : Store := [wUser7]

/-- Witness device for the status frame theorem. -/
def wDev8 : String := "device-w8"

/-- A mid-sequence record. -/
def wUser8 : UserState :=
  { id := "", device_id := wDev8, current_day := 4, last_reveal_time := some 9,
    created_at := 0, updated_at := 9 }

/-- Store holding `wUser8`. -/
def wStore8 : Store := [wUser8]

/-- Witness device for the index-safety theorem. -/
def wDev9 : String := "device-w9"

/-- A fresh day-0 record. -/
def wUser9 : UserState :=
  { id := "", device_id := wDev9, current_day := 0, last_reveal_time := none,
    created_at := 0, updated_at := 0 }

/-- Store holding `wUser9`. -/
def wStore9 : Store := [wUser9]

/-- Witness device for the single-timestamp theorem. -/
def wDev10 : String := "device-w10"

/-- A fresh day-0 record. -/
def wUser10 : UserState :=
  { id := "", device_id := wDev10, current_day := 0, last_reveal_time := none,
    created_at := 0, updated_at := 0 }

/-- Store holding `wUser10`. -/
def wStore10 : Store := [wUser10]

/-- The day-1 response of `wUser10`'s reveal with write time 77. -/
def wResp10 : RevealResponse :=
  { before_red := "Nothing is random when you search for", red_word := "TRUTH",
    after_red := ".", day := 1, next_available_time := 77 + COOLDOWN_US,
    is_final_day := false }

/-! Helper lemmas about the store operations and the two phases. -/

/-- Appending a matching record to a store that has no match makes `find_one`
return it. -/
lemma find_one_append_of_none {s : Store} {d : String} (h : find_one s d = none)
    (u : UserState) (hu : u.device_id = d) :
    find_one (s ++ [u]) d = some u := by
  induction s with
  | nil => simp [find_one, List.find?, hu]
  | cons v rest ih =>
    simp only [find_one, List.find?] at h ⊢
    cases hv : (v.device_id == d) with
    | true => simp [hv] at h
    | false =>
      simp only [hv] at h ⊢
      exact ih h

/-- `update_one` rewrites exactly the record `find_one` would return, when
the rewrite preserves the device id. -/
lemma find_one_update_set (s : Store) (d : String) (f : UserState → UserState)
    (hf : ∀ u, (f u).device_id = u.device_id) :
    find_one (update_set s d f) d = (find_one s d).map f := by
  induction s with
  | nil => simp [find_one, update_set]
  | cons v rest ih =>
    simp only [find_one, update_set, List.find?]
    cases hv : (v.device_id == d) with
    | true =>
      have hfv : (f v).device_id == d := by rw [hf]; exact hv
      simp [List.find?, hfv, hv]
    | false =>
      have hfv : ¬ ((f v).device_id == d) = true := by rw [hf]; simp [hv]
      simp only [hv, if_neg (by simp [hv] : ¬ (v.device_id == d) = true)]
      simp only [List.find?, hv]
      exact ih

/-- After get-or-create, the loaded record is findable. -/
lemma find_load_or_create (s : Store) (d : String) (nc : Time) :
    find_one (load_or_create s d nc).2 d = some (load_or_create s d nc).1 := by
  cases hf : find_one s d with
  | some u => simp [load_or_create, hf]
  | none =>
    simp only [load_or_create, hf]
    exact find_one_append_of_none hf _ rfl

/-- The day get-or-create loads is `dayOf`. -/
lemma loaded_day (s : Store) (d : String) (nc : Time) :
    (load_or_create s d nc).1.current_day = dayOf s d := by
  cases hf : find_one s d <;> simp [load_or_create, dayOf, hf, newUser]

/-- Get-or-create does not change the loadable day. -/
lemma dayOf_load_or_create (s : Store) (d : String) (nc : Time) :
    dayOf (load_or_create s d nc).2 d = dayOf s d := by
  rw [dayOf, find_load_or_create]
  exact loaded_day s d nc

/-- Every index in `[0, 9]` hits the ten-entry fragment table. -/
lemma pyGet_sseq_isSome (i : Int) (h0 : 0 ≤ i) (h10 : i < 10) :
    ∃ frag, pyGet SENTENCE_SEQUENCE i = some frag := by
  have hlen : SENTENCE_SEQUENCE.length = 10 := rfl
  have hn : i.toNat < SENTENCE_SEQUENCE.length := by rw [hlen]; omega
  exact ⟨SENTENCE_SEQUENCE[i.toNat], by simp [pyGet, h0, List.getElem?_eq_getElem hn]⟩

/-- Phase 1 only ever changes the store through get-or-create. -/
lemma phase1_store (s : Store) (d : String) (nc t : Time) :
    (reveal_phase1 s d nc t).2 = (load_or_create s d nc).2 := by
  simp only [reveal_phase1]
  split <;> first
    | rfl
    | (split <;> first | rfl | (split <;> rfl))

/-- A `proceed` outcome of phase 1 carries the loaded day and the fragment
the table holds at that day. -/
lemma phase1_proceed {s : Store} {d : String} {nc t : Time} {day : Int}
    {frag : String × String × String}
    (h : (reveal_phase1 s d nc t).1 = .proceed day frag) :
    day = dayOf s d ∧ pyGet SENTENCE_SEQUENCE (dayOf s d) = some frag := by
  have hd := loaded_day s d nc
  simp only [reveal_phase1] at h
  split at h
  · simp at h
  · split at h
    · rename_i r hcd
      split at hcd
      · split at hcd
        · obtain rfl := (Option.some.inj hcd).symm
          simp at h
        · exact absurd hcd (by simp)
      · exact absurd hcd (by simp)
    · split at h
      · simp at h
      · rename_i hfrag
        obtain ⟨h1, h2⟩ := Phase1Result.proceed.inj h.symm
        subst h1
        rw [hd] at hfrag
        exact ⟨hd, by rw [hfrag, h2]⟩

/-- An `indexErr` outcome of phase 1 means the completion guard passed and
the table lookup at the loaded day failed. -/
lemma phase1_indexErr {s : Store} {d : String} {nc t : Time}
    (h : (reveal_phase1 s d nc t).1 = .indexErr) :
    (load_or_create s d nc).1.current_day < 10 ∧
    pyGet SENTENCE_SEQUENCE ((load_or_create s d nc).1.current_day) = none := by
  simp only [reveal_phase1] at h
  split at h
  · simp at h
  · rename_i hge
    refine ⟨by omega, ?_⟩
    split at h
    · rename_i r hcd
      split at hcd
      · split at hcd
        · obtain rfl := (Option.some.inj hcd).symm
          simp at h
        · exact absurd hcd (by simp)
      · exact absurd hcd (by simp)
    · split at h
      · assumption
      · simp at h

/-- If every loadable record has a non-negative day, so does the record
get-or-create yields. -/
lemma loaded_day_nonneg {s : Store} {d : String} (nc : Time)
    (h : ∀ u, find_one s d = some u → 0 ≤ u.current_day) :
    0 ≤ (load_or_create s d nc).1.current_day := by
  cases hf : find_one s d with
  | some u => simpa [load_or_create, hf] using h u hf
  | none => simp [load_or_create, hf, newUser]

/-- Everything a successful reveal guarantees: the fragment comes from the
table at the loaded day, the response reports `day + 1`, the final-day flag
and `now + 24h`, and the persisted record carries `day + 1` and the same
write timestamp. -/
lemma reveal_success_spec {s : Store} {d : String} {nc t nu : Time} {r : RevealResponse}
    (hsucc : (reveal_sentence s d nc t nu).1 = .success r) :
    ∃ frag, pyGet SENTENCE_SEQUENCE (dayOf s d) = some frag ∧
      r.before_red = frag.1 ∧ r.red_word = frag.2.1 ∧ r.after_red = frag.2.2 ∧
      r.day = dayOf s d + 1 ∧ r.is_final_day = decide (10 ≤ dayOf s d + 1) ∧
      r.next_available_time = nu + COOLDOWN_US ∧
      ∃ u', find_one (reveal_sentence s d nc t nu).2 d = some u' ∧
        u'.current_day = dayOf s d + 1 ∧ u'.last_reveal_time = some nu := by
  cases hp : (reveal_phase1 s d nc t).1 with
  | reject st msg => simp [reveal_sentence, finishPhase, hp] at hsucc
  | indexErr => simp [reveal_sentence, finishPhase, hp] at hsucc
  | proceed day frag =>
    obtain ⟨hday, hfrag⟩ := phase1_proceed hp
    subst hday
    refine ⟨frag, hfrag, ?_⟩
    have hr : r = (reveal_phase2 (reveal_phase1 s d nc t).2 d (dayOf s d) frag nu).1 := by
      simp [reveal_sentence, finishPhase, hp] at hsucc
      exact hsucc.symm
    have hst : (reveal_sentence s d nc t nu).2 =
        (reveal_phase2 (reveal_phase1 s d nc t).2 d (dayOf s d) frag nu).2 := by
      simp [reveal_sentence, finishPhase, hp]
    subst hr
    refine ⟨rfl, rfl, rfl, rfl, rfl, rfl, ?_⟩
    rw [hst]
    simp only [reveal_phase2]
    rw [phase1_store]
    rw [find_one_update_set]
    · rw [find_load_or_create]
      exact ⟨_, rfl, rfl, rfl⟩
    · exact fun u => rfl

/-- `GET /user` only ever changes the store through get-or-create. -/
lemma get_user_state_store (s : Store) (d : String) (nc now : Time) :
    (get_user_state s d nc now).2 = (load_or_create s d nc).2 := by
  simp only [get_user_state]
  split <;> first
    | rfl
    | (split <;> first | rfl | (split <;> rfl))

/-- `GET /user` does not change the loadable day. -/
lemma dayOf_status (s : Store) (d : String) (nc now : Time) :
    dayOf (get_user_state s d nc now).2 d = dayOf s d := by
  rw [get_user_state_store, dayOf_load_or_create]

/-- One `POST /reveal` leaves the loadable day unchanged or raises it by
exactly 1. -/
lemma dayOf_reveal (s : Store) (d : String) (nc t nu : Time) :
    dayOf (reveal_sentence s d nc t nu).2 d = dayOf s d ∨
    dayOf (reveal_sentence s d nc t nu).2 d = dayOf s d + 1 := by
  cases hp : (reveal_phase1 s d nc t).1 with
  | reject st msg =>
    left
    have h2 : (reveal_sentence s d nc t nu).2 = (reveal_phase1 s d nc t).2 := by
      simp [reveal_sentence, finishPhase, hp]
    rw [h2, phase1_store, dayOf_load_or_create]
  | indexErr =>
    left
    have h2 : (reveal_sentence s d nc t nu).2 = (reveal_phase1 s d nc t).2 := by
      simp [reveal_sentence, finishPhase, hp]
    rw [h2, phase1_store, dayOf_load_or_create]
  | proceed day frag =>
    right
    obtain ⟨hday, -⟩ := phase1_proceed hp
    subst hday
    have hst : (reveal_sentence s d nc t nu).2 =
        (reveal_phase2 (reveal_phase1 s d nc t).2 d (dayOf s d) frag nu).2 := by
      simp [reveal_sentence, finishPhase, hp]
    rw [hst]
    simp only [reveal_phase2]
    rw [dayOf, phase1_store]
    rw [find_one_update_set]
    · rw [find_load_or_create]
      simp
    · exact fun u => rfl

/-- One operation leaves the loadable day unchanged or raises it by 1. -/
lemma dayOf_applyOp (s : Store) (d : String) (op : Op) :
    dayOf (applyOp s d op) d = dayOf s d ∨
    dayOf (applyOp s d op) d = dayOf s d + 1 := by
  cases op with
  | status nc now => exact Or.inl (dayOf_status s d nc now)
  | reveal nc t nu => exact dayOf_reveal s d nc t nu

/-- The loadable day is monotone along any operation sequence. -/
lemma dayOf_runOps (s : Store) (d : String) (ops : List Op) :
    dayOf s d ≤ dayOf (runOps s d ops) d := by
  induction ops generalizing s with
  | nil => exact le_refl _
  | cons op ops ih =>
    have h := dayOf_applyOp s d op
    have h1 : dayOf s d ≤ dayOf (applyOp s d op) d := by rcases h with h | h <;> omega
    exact le_trans h1 (ih (applyOp s d op))

/-! The claims. -/

/-- Claim C1 (amended): for a record with `last_reveal_time = T` and
`0 ≤ current_day < 10`, a Reveal at instant `t < T + 24h` is rejected with
status 403 and a wait message whose second count is the *truncation*
(floor) of `T + 24h − t`, leaving the store unchanged, while a Reveal at
`t ≥ T + 24h` (equality included) succeeds with a fragment. -/
theorem reveal_cooldown_truncated (s : Store) (d : String) (u : UserState)
    (T nc t nu : Time) (hfind : find_one s d = some u)
    (h0 : 0 ≤ u.current_day) (h10 : u.current_day < 10)
    (hT : u.last_reveal_time = some T) :
    (t < T + COOLDOWN_US →
      reveal_sentence s d nc t nu =
        (.httpError 403 ("Please wait " ++ toString ((T + COOLDOWN_US - t) / 1000000) ++
          " seconds."), s)) ∧
    (T + COOLDOWN_US ≤ t → ∃ r, (reveal_sentence s d nc t nu).1 = .success r) := by
  constructor
  · intro ht
    simp [reveal_sentence, reveal_phase1, load_or_create, hfind, hT, not_le.mpr h10, ht,
      finishPhase, truncSeconds]
  · intro ht
    obtain ⟨frag, hfrag⟩ := pyGet_sseq_isSome u.current_day h0 h10
    have hp : reveal_phase1 s d nc t = (.proceed u.current_day frag, s) := by
      simp [reveal_phase1, load_or_create, hfind, hT, not_le.mpr h10, not_lt.mpr ht, hfrag]
    exact ⟨(reveal_phase2 s d u.current_day frag nu).1, by
      simp [reveal_sentence, hp, finishPhase]⟩

/-- Claim C1, witness: a concrete blocked reveal 500 microseconds into day 2
of device `wDev1`'s cooldown window. -/
theorem reveal_cooldown_truncated_witness :
    reveal_sentence wStore1 wDev1 0 500 0 =
      (.httpError 403 ("Please wait " ++ toString ((1000 + COOLDOWN_US - 500) / 1000000) ++
        " seconds."), wStore1) :=
  (reveal_cooldown_truncated wStore1 wDev1 wUser1 1000 0 500 0 (by decide) (by decide)
    (by decide) (by decide)).1 (by decide)

/-- Claim C1, counterexample to the claim as stated: half a second before
the cooldown elapses the code reports `0` remaining seconds, not the
ceiling `1` the claim requires. -/
theorem reveal_cooldown_ceil_cex :
    cexT < 0 + COOLDOWN_US ∧
    (reveal_sentence cooldownStore cooldownDev 0 cexT 0).1 ≠
      .httpError 403 ("Please wait " ++ toString (ceilSeconds (0 + COOLDOWN_US - cexT)) ++
        " seconds.") ∧
    (reveal_sentence cooldownStore cooldownDev 0 cexT 0).1 =
      .httpError 403 ("Please wait 0 seconds.") := by decide

/-- Claim C2: two Reveal calls for an eligible day-0 device, interleaved so
both load before either writes, BOTH return the day-1 fragment with a 200 —
the unconditional `update_one` does not reject the second writer, so the
claimed exactly-one-success behaviour fails (the final `current_day` is 1
only because both writers persist the same stale `next_day`). -/
theorem reveal_concurrent_both_succeed :
    (reveal_concurrent dupStore dupDev 5).1 = .success dupResp ∧
    (reveal_concurrent dupStore dupDev 5).2.1 = .success dupResp ∧
    dayOf (reveal_concurrent dupStore dupDev 5).2.2 dupDev = 1 := by decide

/-- Claim C3: a record with `current_day ≥ 10` makes every Reveal return the
fixed 403 completion message and leaves the store untouched, whatever the
call instant. -/
theorem reveal_terminal_rejects (s : Store) (d : String) (nc t nu : Time) (u : UserState)
    (hfind : find_one s d = some u) (h10 : 10 ≤ u.current_day) :
    reveal_sentence s d nc t nu = (.httpError 403 ("All sentences have been revealed."), s) := by
  simp [reveal_sentence, reveal_phase1, load_or_create, hfind, h10, finishPhase]

/-- Claim C3, witness: the completed device `wDev3` rejected at a far-future
instant. -/
theorem reveal_terminal_rejects_witness :
    reveal_sentence wStore3 wDev3 0 999999999999999 0 =
      (.httpError 403 ("All sentences have been revealed."), wStore3) :=
  reveal_terminal_rejects wStore3 wDev3 0 999999999999999 0 wUser3 (by decide) (by decide)

/-- Claim C4: every successful Reveal — lazy-create first reveals included —
persists exactly `loaded current_day + 1` (`dayOf` is the loaded day: the
record's day, or 0 when the record is created on this call); for an existing
record that is exactly the record's old day plus 1; every single operation
leaves the loadable day unchanged or raises it by exactly 1 (no skips, no
decreases); and the loadable day is monotone along any sequence of
operations. -/
theorem current_day_increments_by_one :
    (∀ (s : Store) (d : String) (nc t nu : Time) (r : RevealResponse),
      (reveal_sentence s d nc t nu).1 = .success r →
      ∃ u', find_one (reveal_sentence s d nc t nu).2 d = some u' ∧
        u'.current_day = dayOf s d + 1) ∧
    (∀ (s : Store) (d : String) (nc t nu : Time) (u : UserState) (r : RevealResponse),
      find_one s d = some u → (reveal_sentence s d nc t nu).1 = .success r →
      ∃ u', find_one (reveal_sentence s d nc t nu).2 d = some u' ∧
        u'.current_day = u.current_day + 1) ∧
    (∀ (s : Store) (d : String) (op : Op),
      dayOf (applyOp s d op) d = dayOf s d ∨
      dayOf (applyOp s d op) d = dayOf s d + 1) ∧
    (∀ (s : Store) (d : String) (ops : List Op),
      dayOf s d ≤ dayOf (runOps s d ops) d) := by
  have hgen : ∀ (s : Store) (d : String) (nc t nu : Time) (r : RevealResponse),
      (reveal_sentence s d nc t nu).1 = .success r →
      ∃ u', find_one (reveal_sentence s d nc t nu).2 d = some u' ∧
        u'.current_day = dayOf s d + 1 := by
    intro s d nc t nu r hsucc
    obtain ⟨frag, -, -, -, -, -, -, -, u', hu', hday, -⟩ := reveal_success_spec hsucc
    exact ⟨u', hu', hday⟩
  refine ⟨hgen, ?_, dayOf_applyOp, dayOf_runOps⟩
  intro s d nc t nu u r hfind hsucc
  obtain ⟨u', hu', hday⟩ := hgen s d nc t nu r hsucc
  have hd : dayOf s d = u.current_day := by simp [dayOf, hfind]
  exact ⟨u', hu', by rw [hday, hd]⟩

/-- Claim C4, witness: the lazy-created record of `wDev4` on an empty store
is persisted at day 0 + 1, and `wDev4`'s existing day-0 record advances to
day 1. -/
theorem current_day_increments_by_one_witness :
    (∃ u', find_one (reveal_sentence [] wDev4 0 0 0).2 wDev4 = some u' ∧
      u'.current_day = dayOf ([] : Store) wDev4 + 1) ∧
    (∃ u', find_one (reveal_sentence wStore4 wDev4 0 0 0).2 wDev4 = some u' ∧
      u'.current_day = wUser4.current_day + 1) :=
  ⟨current_day_increments_by_one.1 [] wDev4 0 0 0 wResp4 (by decide),
   current_day_increments_by_one.2.1 wStore4 wDev4 0 0 0 wUser4 wResp4 (by decide) (by decide)⟩

/-- Claim C5: with no existing record the first Reveal succeeds at any
instant (no cooldown applies), returning day 1 and the TRUTH fragment. -/
theorem first_reveal_day_one (s : Store) (d : String) (nc t nu : Time)
    (hfind : find_one s d = none) :
    (reveal_sentence s d nc t nu).1 = .success
      { before_red := "Nothing is random when you search for", red_word := "TRUTH",
        after_red := ".", day := 1, next_available_time := nu + COOLDOWN_US,
        is_final_day := false } := by
  simp [reveal_sentence, reveal_phase1, load_or_create, hfind, newUser, finishPhase,
    reveal_phase2, pyGet, SENTENCE_SEQUENCE]

/-- Claim C5, witness: the unknown device `wDev5` on an empty store. -/
theorem first_reveal_day_one_witness :
    (reveal_sentence [] wDev5 0 0 5).1 = .success
      { before_red := "Nothing is random when you search for", red_word := "TRUTH",
        after_red := ".", day := 1, next_available_time := 5 + COOLDOWN_US,
        is_final_day := false } :=
  first_reveal_day_one [] wDev5 0 0 5 (by decide)

/-- Claim C6: a successful Reveal from loaded day 9 (the tenth) reports
`is_final_day = true` with the PATIENTLY fragment; a successful Reveal from
any earlier loaded day reports `is_final_day = false`. -/
theorem final_day_flag (s : Store) (d : String) (nc t nu : Time) :
    (dayOf s d = 9 → ∀ r, (reveal_sentence s d nc t nu).1 = .success r →
      r.is_final_day = true ∧ r.before_red = "Meaning appears" ∧
      r.red_word = "PATIENTLY" ∧ r.after_red = ".") ∧
    (dayOf s d < 9 → ∀ r, (reveal_sentence s d nc t nu).1 = .success r →
      r.is_final_day = false) := by
  constructor
  · intro h9 r hsucc
    obtain ⟨frag, hfrag, hb, hw, ha, hday, hfin, hnext, -⟩ := reveal_success_spec hsucc
    rw [h9] at hfrag hfin
    have hfr : frag = ("Meaning appears", "PATIENTLY", ".") := by
      have h99 : pyGet SENTENCE_SEQUENCE 9 = some ("Meaning appears", "PATIENTLY", ".") := by
        decide
      exact Option.some.inj (h99 ▸ hfrag).symm
    subst hfr
    exact ⟨by rw [hfin]; decide, hb, hw, ha⟩
  · intro h9 r hsucc
    obtain ⟨frag, hfrag, hb, hw, ha, hday, hfin, hnext, -⟩ := reveal_success_spec hsucc
    rw [hfin]
    simp
    omega

/-- Claim C6, witness: device `wDev6`'s tenth reveal carries the final flag
and the PATIENTLY fragment. -/
theorem final_day_flag_witness :
    wResp6.is_final_day = true ∧ wResp6.before_red = "Meaning appears" ∧
    wResp6.red_word = "PATIENTLY" ∧ wResp6.after_red = "." :=
  (final_day_flag wStore6 wDev6 0 COOLDOWN_US COOLDOWN_US).1 (by decide) wResp6 (by decide)

/-- Claim C7 (amended): for a record with a prior reveal at `T`,
`current_day < 10` and `now < T + 24h`, GetStatus reports
`can_reveal = false`, `next_available_time = T + 24h`, and
`seconds_until_available` equal to the *truncation* (floor) of
`T + 24h − now`, not the ceiling. -/
theorem get_status_cooldown_truncated (s : Store) (d : String) (u : UserState)
    (T nc now : Time) (hfind : find_one s d = some u) (h10 : u.current_day < 10)
    (hT : u.last_reveal_time = some T) (hnow : now < T + COOLDOWN_US) :
    (get_user_state s d nc now).1 =
      { device_id := u.device_id, can_reveal := false,
        seconds_until_available := (T + COOLDOWN_US - now) / 1000000,
        next_available_time := some (T + COOLDOWN_US), current_day := u.current_day,
        is_complete := false } := by
  simp [get_user_state, load_or_create, hfind, hT, not_le.mpr h10, hnow, truncSeconds]

/-- Claim C7, witness: device `wDev7` polled 7 microseconds after its
reveal. -/
theorem get_status_cooldown_truncated_witness :
    (get_user_state wStore7 wDev7 0 7).1 =
      { device_id := wUser7.device_id, can_reveal := false,
        seconds_until_available := (0 + COOLDOWN_US - 7) / 1000000,
        next_available_time := some (0 + COOLDOWN_US), current_day := wUser7.current_day,
        is_complete := false } :=
  get_status_cooldown_truncated wStore7 wDev7 wUser7 0 0 7 (by decide) (by decide)
    (by decide) (by decide)

/-- Claim C7, counterexample to the claim as stated: polled 7 microseconds
into the window the code reports 86399 seconds, not the ceiling 86400. -/
theorem get_status_ceil_cex :
    7 < 0 + COOLDOWN_US ∧
    (get_user_state statusStore statusDev 0 7).1.seconds_until_available ≠
      ceilSeconds (0 + COOLDOWN_US - 7) ∧
    (get_user_state statusStore statusDev 0 7).1.seconds_until_available = 86399 := by decide

/-- Claim C8: GetStatus on an existing record returns the store verbatim;
on a missing record its only write is appending a fresh record with
`current_day = 0` and no `last_reveal_time`. -/
theorem get_status_frame (s : Store) (d : String) (nc now : Time) :
    (∀ u, find_one s d = some u → (get_user_state s d nc now).2 = s) ∧
    (find_one s d = none →
      (get_user_state s d nc now).2 = s ++ [newUser d nc] ∧
      (newUser d nc).current_day = 0 ∧ (newUser d nc).last_reveal_time = none) := by
  constructor
  · intro u hu
    rw [get_user_state_store]
    simp [load_or_create, hu]
  · intro h
    refine ⟨?_, rfl, rfl⟩
    rw [get_user_state_store]
    simp [load_or_create, h, insert_one]

/-- Claim C8, witness: polling existing device `wDev8` leaves the store
unchanged. -/
theorem get_status_frame_witness :
    (get_user_state wStore8 wDev8 3 4).2 = wStore8 :=
  (get_status_frame wStore8 wDev8 3 4).1 wUser8 (by decide)

/-- Claim C9: when every loadable record carries a non-negative
`current_day`, the fragment-table lookup inside Reveal never raises
`IndexError`: the `current_day >= 10` guard runs first, so the index is in
`[0, 9]`. -/
theorem sentence_index_in_bounds (s : Store) (d : String) (nc t nu : Time)
    (h : ∀ u, find_one s d = some u → 0 ≤ u.current_day) :
    (reveal_sentence s d nc t nu).1 ≠ .indexError := by
  cases hp : (reveal_phase1 s d nc t).1 with
  | reject st msg => simp [reveal_sentence, finishPhase, hp]
  | proceed day frag => simp [reveal_sentence, finishPhase, hp]
  | indexErr =>
    exfalso
    obtain ⟨hlt, hnone⟩ := phase1_indexErr hp
    obtain ⟨frag, hfrag⟩ :=
      pyGet_sseq_isSome _ (loaded_day_nonneg nc h) hlt
    rw [hnone] at hfrag
    exact Option.noConfusion hfrag

/-- Claim C9, witness: device `wDev9`'s reveal does not raise. -/
theorem sentence_index_in_bounds_witness :
    (reveal_sentence wStore9 wDev9 0 0 0).1 ≠ .indexError :=
  sentence_index_in_bounds wStore9 wDev9 0 0 0 (fun u hu => by
    have h9 : some wUser9 = some u := hu
    obtain rfl := Option.some.inj h9
    decide)

/-- Claim C10: a successful Reveal persists `last_reveal_time = nowUpdate`
and returns `next_available_time = nowUpdate + 24h` — both sides of the
24-hour relation come from the single timestamp sampled after the
eligibility checks. -/
theorem next_available_matches_persisted (s : Store) (d : String) (nc t nu : Time)
    (r : RevealResponse) (hsucc : (reveal_sentence s d nc t nu).1 = .success r) :
    ∃ u', find_one (reveal_sentence s d nc t nu).2 d = some u' ∧
      u'.last_reveal_time = some nu ∧
      r.next_available_time = nu + COOLDOWN_US := by
  obtain ⟨frag, -, -, -, -, -, -, hnext, u', hu', -, hlast⟩ := reveal_success_spec hsucc
  exact ⟨u', hu', hlast, hnext⟩

/-- Claim C10, witness: device `wDev10` revealed with write time 77. -/
theorem next_available_matches_persisted_witness :
    ∃ u', find_one (reveal_sentence wStore10 wDev10 0 0 77).2 wDev10 = some u' ∧
      u'.last_reveal_time = some 77 ∧
      wResp10.next_available_time = 77 + COOLDOWN_US :=
  next_available_matches_persisted wStore10 wDev10 0 0 77 wResp10 (by decide)

end Mystery
